import Mathlib

/-!
Shallow embedding of `src/enterprise_mcp_mvp_demo/routes/role_router.py`:
a FastAPI endpoint group exposing create / get-by-id / get-by-name / list
operations over a Role entity, each delegating to a `DatabaseManager`
collaborator (external to this repository; modelled abstractly as a record
of operation results).

Handlers are written as small interaction programs (`DBProg`) over the
collaborator interface, so that the number of delegated calls a handler
makes is itself a provable quantity; `run` interprets such a program
against a concrete collaborator, giving the plain functional behaviour of
each route handler.
-/

namespace RoleRouter

/-- A Python exception as observed by the router: the exception class name
and the text `str(e)` produced when the router reports it. -/
structure Exn where
  kind : String
  msg : String
deriving DecidableEq, Repr

/-- The text `str(e)` of an exception, used as the HTTP error detail. -/
def Exn.str (e : Exn) : String := e.msg

/-- Pydantic request model `RoleCreate` (role_router.py lines 22-31):
`role_name : str`, `level : int`. -/
structure RoleCreate where
  role_name : String
  level : Int
deriving DecidableEq, Repr

/-- Pydantic response model `RoleResponse` (role_router.py lines 34-47):
exactly the three fields `id`, `role_name`, `level` (orm_mode reads them
off the returned ORM entity). -/
structure RoleResponse where
  id : Int
  role_name : String
  level : Int
deriving DecidableEq, Repr

/-- An ORM entity as returned by the database collaborator: each of the
three attributes the response model reads may be present or absent, and the
entity may carry arbitrary further attributes (`extra`) that the response
model never looks at. -/
structure DBEntity where
  id? : Option Int
  role_name? : Option String
  level? : Option Int
  extra : List (String × String)
deriving DecidableEq, Repr

/-- The `DatabaseManager` collaborator (imported from `db.db_manager`, not
part of this repository): the four operations the router delegates to, each
either raising an exception or returning a value. `get_role` and
`get_role_by_name` may return an empty/falsy result (`none`) to signal
absence. -/
structure Collaborator where
  create_role : String → Int → Except Exn DBEntity
  get_role : Int → Except Exn (Option DBEntity)
  get_role_by_name : String → Except Exn (Option DBEntity)
  get_all_roles : Except Exn (List DBEntity)

/-- The outcome of a request as seen by the client: a successful body, an
`HTTPException(status_code, detail)`, an exception that escaped the handler
to the hosting server, a response-model validation failure, or a rejection
of the request body by the framework before the handler ran. -/
inductive Response (α : Type) where
  | ok : α → Response α
  | httpError : Nat → String → Response α
  | uncaught : Exn → Response α
  | respValidationError : Response α
  | reqValidationError : Response α
deriving DecidableEq, Repr

/-- FastAPI response-model validation with orm_mode (role_router.py lines
34-47): reading the three declared fields off the entity succeeds exactly
when all three attributes are present, and any extra attributes are
dropped. -/
def serializeRole (ent : DBEntity) : Option RoleResponse :=
  match ent.id?, ent.role_name?, ent.level? with
  | some i, some n, some l => some ⟨i, n, l⟩
  | _, _, _ => none

/-- Response-model validation for `List[RoleResponse]`: each element in
order. -/
def serializeRoles : List DBEntity → Option (List RoleResponse)
  | [] => some []
  | ent :: ents =>
    match serializeRole ent, serializeRoles ents with
    | some r, some rs => some (r :: rs)
    | _, _ => none

/-- An interaction program over the collaborator interface: each
constructor other than `done` is one delegated call, with a continuation
receiving that call's outcome. -/
inductive DBProg (α : Type) where
  | done : α → DBProg α
  | createCall : String → Int → (Except Exn DBEntity → DBProg α) → DBProg α
  | getCall : Int → (Except Exn (Option DBEntity) → DBProg α) → DBProg α
  | getByNameCall : String → (Except Exn (Option DBEntity) → DBProg α) → DBProg α
  | listCall : (Except Exn (List DBEntity) → DBProg α) → DBProg α

/-- Interpret an interaction program against a concrete collaborator. -/
def run {α : Type} (crud : Collaborator) : DBProg α → α
  | .done a => a
  | .createCall n l k => run crud (k (crud.create_role n l))
  | .getCall i k => run crud (k (crud.get_role i))
  | .getByNameCall n k => run crud (k (crud.get_role_by_name n))
  | .listCall k => run crud (k crud.get_all_roles)

/-- Number of delegated collaborator calls a program performs when run
against `crud`. -/
def countCalls {α : Type} (crud : Collaborator) : DBProg α → Nat
  | .done _ => 0
  | .createCall n l k => 1 + countCalls crud (k (crud.create_role n l))
  | .getCall i k => 1 + countCalls crud (k (crud.get_role i))
  | .getByNameCall n k => 1 + countCalls crud (k (crud.get_role_by_name n))
  | .listCall k => 1 + countCalls crud (k crud.get_all_roles)

/-- Handler body of `create_role` (role_router.py lines 50-67): one
delegated `crud.create_role(role_name=role.role_name, level=role.level)`
inside try/except; any exception becomes
`HTTPException(status_code=400, detail=str(e))`; a successful entity is
then validated against `RoleResponse`. -/
def create_role_prog (role : RoleCreate) : DBProg (Response RoleResponse) :=
  .createCall role.role_name role.level fun res =>
    .done (match res with
      | .error e => .httpError 400 e.str
      | .ok ent =>
        match serializeRole ent with
        | some r => .ok r
        | none => .respValidationError)

/-- Handler body of `get_role` (role_router.py lines 70-87): one delegated
`crud.get_role(role_id)` with no try/except; a falsy/empty result becomes
`HTTPException(status_code=404, detail="Role not found")`; otherwise the
entity is validated against `RoleResponse`. -/
def get_role_prog (role_id : Int) : DBProg (Response RoleResponse) :=
  .getCall role_id fun res =>
    .done (match res with
      | .error e => .uncaught e
      | .ok none => .httpError 404 "Role not found"
      | .ok (some ent) =>
        match serializeRole ent with
        | some r => .ok r
        | none => .respValidationError)

/-- Handler body of `get_role_by_name` (role_router.py lines 90-107): same
shape as `get_role`, keyed by name. -/
def get_role_by_name_prog (role_name : String) : DBProg (Response RoleResponse) :=
  .getByNameCall role_name fun res =>
    .done (match res with
      | .error e => .uncaught e
      | .ok none => .httpError 404 "Role not found"
      | .ok (some ent) =>
        match serializeRole ent with
        | some r => .ok r
        | none => .respValidationError)

/-- Handler body of `get_all_roles` (role_router.py lines 110-118): one
delegated `crud.get_all_roles()` with no try/except; the list is validated
against `List[RoleResponse]`. -/
def get_all_roles_prog : DBProg (Response (List RoleResponse)) :=
  .listCall fun res =>
    .done (match res with
      | .error e => .uncaught e
      | .ok ents =>
        match serializeRoles ents with
        | some rs => .ok rs
        | none => .respValidationError)

/-- The `create_role` route handler as a function of the collaborator. -/
def create_role (crud : Collaborator) (role : RoleCreate) : Response RoleResponse :=
  run crud (create_role_prog role)

/-- The `get_role` route handler as a function of the collaborator. -/
def get_role (crud : Collaborator) (role_id : Int) : Response RoleResponse :=
  run crud (get_role_prog role_id)

/-- The `get_role_by_name` route handler as a function of the collaborator. -/
def get_role_by_name (crud : Collaborator) (role_name : String) : Response RoleResponse :=
  run crud (get_role_by_name_prog role_name)

/-- The `get_all_roles` route handler as a function of the collaborator. -/
def get_all_roles (crud : Collaborator) : Response (List RoleResponse) :=
  run crud get_all_roles_prog

/-- A raw POST body for the create route, before framework validation: each
declared field is either absent or present with its declared type. -/
structure RawBody where
  role_name? : Option String
  level? : Option Int
deriving DecidableEq, Repr

/-- Modelled from the spec: the framework-level schema validation FastAPI
and pydantic perform on the POST body before the handler runs (spec section
7, "Validation error"; the validating framework code is not part of this
repository). The request model `RoleCreate` (role_router.py lines 22-31)
declares `role_name : str` and `level : int` with no further constraint, so
validation requires only that each field be present with its declared
type; in particular the empty string is a valid `str`. -/
def validate_RoleCreate (body : RawBody) : Option RoleCreate :=
  match body.role_name?, body.level? with
  | some n, some l => some ⟨n, l⟩
  | _, _ => none

/-- The full POST `/roles/` endpoint: framework validation of the body,
then the `create_role` handler. -/
def post_roles (crud : Collaborator) (body : RawBody) : Response RoleResponse :=
  match validate_RoleCreate body with
  | none => .reqValidationError
  | some role => create_role crud role

/-- A concrete collaborator that succeeds everywhere and echoes its
arguments into the created entity; used to evaluate the theorems on
concrete inputs. -/
def echoCrud : Collaborator where
  create_role := fun n l => .ok ⟨some 1, some n, some l, []⟩
  get_role := fun i =>
    if i = 1 then .ok (some ⟨some 1, some "admin", some 3, []⟩) else .ok none
  get_role_by_name := fun n =>
    if n = "admin" then .ok (some ⟨some 1, some "admin", some 3, []⟩) else .ok none
  get_all_roles := .ok [⟨some 1, some "admin", some 3, []⟩]

/-- A concrete collaborator whose every operation raises; used to evaluate
the error-path theorems on concrete inputs. -/
def boomCrud : Collaborator where
  create_role := fun _ _ => .error ⟨"IntegrityError", "duplicate role name"⟩
  get_role := fun _ => .error ⟨"OperationalError", "connection refused"⟩
  get_role_by_name := fun _ => .error ⟨"OperationalError", "connection refused"⟩
  get_all_roles := .error ⟨"OperationalError", "connection refused"⟩

/-- Per-element serialization determines the length of a serialized list. -/
theorem serializeRoles_length {ents : List DBEntity} {rs : List RoleResponse}
    (h : serializeRoles ents = some rs) : rs.length = ents.length := by
  induction ents generalizing rs with
  | nil =>
    simp [serializeRoles] at h
    simp [h]
  | cons ent ents ih =>
    cases h1 : serializeRole ent with
    | none => simp [serializeRoles, h1] at h
    | some r =>
      cases h2 : serializeRoles ents with
      | none => simp [serializeRoles, h1, h2] at h
      | some rs2 =>
        simp [serializeRoles, h1, h2] at h
        subst h
        simp [ih h2]

/-- Per-element serialization acts pointwise, preserving positions. -/
theorem serializeRoles_get {ents : List DBEntity} {rs : List RoleResponse}
    (h : serializeRoles ents = some rs) (i : Nat) (hi : i < ents.length)
    (hri : i < rs.length) :
    serializeRole (ents.get ⟨i, hi⟩) = some (rs.get ⟨i, hri⟩) := by
  induction ents generalizing rs i with
  | nil => simp at hi
  | cons ent ents ih =>
    cases h1 : serializeRole ent with
    | none => simp [serializeRoles, h1] at h
    | some r =>
      cases h2 : serializeRoles ents with
      | none => simp [serializeRoles, h1, h2] at h
      | some rs2 =>
        simp [serializeRoles, h1, h2] at h
        subst h
        cases i with
        | zero => simpa using h1
        | succ j =>
          exact ih h2 j (Nat.lt_of_succ_lt_succ hi) (Nat.lt_of_succ_lt_succ hri)

/-- A serialized response carries exactly the entity's three declared
attributes. -/
theorem serializeRole_fields {ent : DBEntity} {r : RoleResponse}
    (hs : serializeRole ent = some r) :
    ent.id? = some r.id ∧ ent.role_name? = some r.role_name ∧
      ent.level? = some r.level := by
  unfold serializeRole at hs
  cases hid : ent.id? with
  | none => simp [hid] at hs
  | some i =>
    cases hn : ent.role_name? with
    | none => simp [hid, hn] at hs
    | some n =>
      cases hl : ent.level? with
      | none => simp [hid, hn, hl] at hs
      | some l =>
        simp [hid, hn, hl] at hs
        subst hs
        simp

/-- Claim C1: if the delegated collaborator create call raises any exception
for any reason — regardless of its class `e.kind` — `create_role` answers a
400 response whose detail is exactly `str(e)`. -/
theorem create_role_any_exception_is_400 (crud : Collaborator) (role : RoleCreate)
    (e : Exn) (h : crud.create_role role.role_name role.level = .error e) :
    create_role crud role = .httpError 400 e.str := by
  simp [create_role, run, create_role_prog, h]

/-- Witness for C1: a collaborator raising an IntegrityError on create makes
the endpoint answer 400 with that error's text. -/
theorem create_role_any_exception_is_400_witness :
    create_role boomCrud ⟨"admin", 1⟩ = .httpError 400 "duplicate role name" :=
  create_role_any_exception_is_400 boomCrud ⟨"admin", 1⟩
    ⟨"IntegrityError", "duplicate role name"⟩ rfl

/-- Claim C2: each of `get_role` and `get_role_by_name` answers 404 with
detail exactly "Role not found" if and only if the collaborator lookup
returns a falsy/empty result, and otherwise returns the role the
collaborator returned; the two contracts are identical. -/
theorem get_role_contracts (crud : Collaborator) (role_id : Int) (role_name : String) :
    ((get_role crud role_id = .httpError 404 "Role not found") ↔
      crud.get_role role_id = .ok none) ∧
    (∀ ent r, crud.get_role role_id = .ok (some ent) → serializeRole ent = some r →
      get_role crud role_id = .ok r) ∧
    ((get_role_by_name crud role_name = .httpError 404 "Role not found") ↔
      crud.get_role_by_name role_name = .ok none) ∧
    (∀ ent r, crud.get_role_by_name role_name = .ok (some ent) →
      serializeRole ent = some r → get_role_by_name crud role_name = .ok r) := by
  refine ⟨?_, ?_, ?_, ?_⟩
  · cases h : crud.get_role role_id with
    | error e => simp [get_role, run, get_role_prog, h]
    | ok o =>
      cases o with
      | none => simp [get_role, run, get_role_prog, h]
      | some ent =>
        cases hs : serializeRole ent with
        | none => simp [get_role, run, get_role_prog, h, hs]
        | some r => simp [get_role, run, get_role_prog, h, hs]
  · intro ent r h hs
    simp [get_role, run, get_role_prog, h, hs]
  · cases h : crud.get_role_by_name role_name with
    | error e => simp [get_role_by_name, run, get_role_by_name_prog, h]
    | ok o =>
      cases o with
      | none => simp [get_role_by_name, run, get_role_by_name_prog, h]
      | some ent =>
        cases hs : serializeRole ent with
        | none => simp [get_role_by_name, run, get_role_by_name_prog, h, hs]
        | some r => simp [get_role_by_name, run, get_role_by_name_prog, h, hs]
  · intro ent r h hs
    simp [get_role_by_name, run, get_role_by_name_prog, h, hs]

/-- Witness for C2: on a collaborator with exactly one stored role, id 2 is
absent (404 by the iff), and looking up id 1 returns that role. -/
theorem get_role_contracts_witness :
    get_role echoCrud 2 = .httpError 404 "Role not found" ∧
    get_role echoCrud 1 = .ok ⟨1, "admin", 3⟩ ∧
    get_role_by_name echoCrud "admin" = .ok ⟨1, "admin", 3⟩ :=
  ⟨(get_role_contracts echoCrud 2 "admin").1.mpr rfl,
   (get_role_contracts echoCrud 1 "admin").2.1 ⟨some 1, some "admin", some 3, []⟩
     ⟨1, "admin", 3⟩ rfl rfl,
   (get_role_contracts echoCrud 1 "admin").2.2.2 ⟨some 1, some "admin", some 3, []⟩
     ⟨1, "admin", 3⟩ rfl rfl⟩

/-- Claim C3: a successful `create_role` response is exactly the entity the
collaborator created from the unchanged caller-supplied `role_name` and
`level`, and it carries that entity's assigned id, name and level. -/
theorem create_role_passes_fields_through (crud : Collaborator) (role : RoleCreate)
    (r : RoleResponse) :
    (create_role crud role = .ok r ↔
      ∃ ent, crud.create_role role.role_name role.level = .ok ent ∧
        serializeRole ent = some r) ∧
    (∀ ent, serializeRole ent = some r →
      ent.id? = some r.id ∧ ent.role_name? = some r.role_name ∧
        ent.level? = some r.level) := by
  constructor
  · cases h : crud.create_role role.role_name role.level with
    | error e => simp [create_role, run, create_role_prog, h]
    | ok ent =>
      cases hs : serializeRole ent with
      | none => simp [create_role, run, create_role_prog, h, hs]
      | some r2 => simp [create_role, run, create_role_prog, h, hs]
  · intro ent hs
    exact serializeRole_fields hs

/-- Witness for C3: creating ("admin", 1) on the echoing collaborator
succeeds with the created entity's id 1 and the unchanged fields. -/
theorem create_role_passes_fields_through_witness :
    create_role echoCrud ⟨"admin", 1⟩ = .ok ⟨1, "admin", 1⟩ :=
  (create_role_passes_fields_through echoCrud ⟨"admin", 1⟩ ⟨1, "admin", 1⟩).1.mpr
    ⟨⟨some 1, some "admin", some 1, []⟩, rfl, rfl⟩

/-- Claim C4: after a successful create, if the collaborator stores what it
was given (lookup at the returned id yields an entity with exactly the
supplied name and level), then `get_role` at the returned id yields a Role
with the `role_name` and `level` supplied at creation. -/
theorem create_then_get_roundtrip (crud : Collaborator) (role : RoleCreate)
    (r : RoleResponse) (ext : List (String × String))
    (hcreate : create_role crud role = .ok r)
    (hstore : crud.get_role r.id =
      .ok (some ⟨some r.id, some role.role_name, some role.level, ext⟩)) :
    get_role crud r.id = .ok ⟨r.id, role.role_name, role.level⟩ := by
  simp [get_role, run, get_role_prog, hstore, serializeRole]

/-- Witness for C4: create ("admin", 3) on the echoing collaborator, then
fetch id 1; the fetched role carries the supplied name and level. -/
theorem create_then_get_roundtrip_witness :
    get_role echoCrud 1 = .ok ⟨1, "admin", 3⟩ :=
  create_then_get_roundtrip echoCrud ⟨"admin", 3⟩ ⟨1, "admin", 3⟩ [] rfl rfl

/-- Claim C5: an exception from the collaborator during `get_role`,
`get_role_by_name` or `get_all_roles` is not caught by this layer: the
handler outcome is the uncaught exception itself, unmapped. -/
theorem get_and_list_exceptions_propagate (crud : Collaborator) (role_id : Int)
    (role_name : String) (e : Exn) :
    (crud.get_role role_id = .error e → get_role crud role_id = .uncaught e) ∧
    (crud.get_role_by_name role_name = .error e →
      get_role_by_name crud role_name = .uncaught e) ∧
    (crud.get_all_roles = .error e → get_all_roles crud = .uncaught e) := by
  refine ⟨?_, ?_, ?_⟩ <;> intro h
  · simp [get_role, run, get_role_prog, h]
  · simp [get_role_by_name, run, get_role_by_name_prog, h]
  · simp [get_all_roles, run, get_all_roles_prog, h]

/-- Witness for C5: on a collaborator whose operations all raise an
OperationalError, all three read endpoints surface that exception
uncaught. -/
theorem get_and_list_exceptions_propagate_witness :
    get_role boomCrud 1 = .uncaught ⟨"OperationalError", "connection refused"⟩ ∧
    get_role_by_name boomCrud "admin" =
      .uncaught ⟨"OperationalError", "connection refused"⟩ ∧
    get_all_roles boomCrud = .uncaught ⟨"OperationalError", "connection refused"⟩ :=
  ⟨(get_and_list_exceptions_propagate boomCrud 1 "admin"
      ⟨"OperationalError", "connection refused"⟩).1 rfl,
   (get_and_list_exceptions_propagate boomCrud 1 "admin"
      ⟨"OperationalError", "connection refused"⟩).2.1 rfl,
   (get_and_list_exceptions_propagate boomCrud 1 "admin"
      ⟨"OperationalError", "connection refused"⟩).2.2 rfl⟩

/-- Counterexample to C6 as stated: a request whose `role_name` is the
empty string is NOT rejected by schema validation — it passes validation,
is delegated to the collaborator, and succeeds, with the empty name echoed
back in the created entity. -/
theorem empty_role_name_not_rejected :
    post_roles echoCrud ⟨some "", some 7⟩ = .ok ⟨1, "", 7⟩ := rfl

/-- Claim C6 as amended: framework schema validation enforces only presence
and string type of `role_name` (the declared type is a bare `str`), so an
empty `role_name` passes validation and is delegated to the handler
unchanged; only a request missing a declared field is rejected before the
handler runs. -/
theorem schema_validation_presence_only (crud : Collaborator) (s : String) (n : Int) :
    post_roles crud ⟨some s, some n⟩ = create_role crud ⟨s, n⟩ ∧
    post_roles crud ⟨none, some n⟩ = .reqValidationError ∧
    post_roles crud ⟨some s, none⟩ = .reqValidationError ∧
    post_roles crud ⟨none, none⟩ = .reqValidationError :=
  ⟨rfl, rfl, rfl, rfl⟩

/-- Claim C7: a successful list response is exactly the sequence the
collaborator produced — same length, each position the serialization of the
collaborator's entity at that position; no filtering or reordering. -/
theorem list_is_exact_passthrough (crud : Collaborator) (rs : List RoleResponse) :
    (get_all_roles crud = .ok rs ↔
      ∃ ents, crud.get_all_roles = .ok ents ∧ serializeRoles ents = some rs) ∧
    (∀ ents, serializeRoles ents = some rs →
      rs.length = ents.length ∧
      ∀ i, ∀ hi : i < ents.length, ∀ hri : i < rs.length,
        serializeRole (ents.get ⟨i, hi⟩) = some (rs.get ⟨i, hri⟩)) := by
  constructor
  · cases h : crud.get_all_roles with
    | error e => simp [get_all_roles, run, get_all_roles_prog, h]
    | ok ents =>
      cases hs : serializeRoles ents with
      | none => simp [get_all_roles, run, get_all_roles_prog, h, hs]
      | some rs2 => simp [get_all_roles, run, get_all_roles_prog, h, hs]
  · intro ents hs
    exact ⟨serializeRoles_length hs, fun i hi hri => serializeRoles_get hs i hi hri⟩

/-- Witness for C7: listing on the echoing collaborator yields exactly its
one stored role. -/
theorem list_is_exact_passthrough_witness :
    get_all_roles echoCrud = .ok [⟨1, "admin", 3⟩] :=
  (list_is_exact_passthrough echoCrud [⟨1, "admin", 3⟩]).1.mpr
    ⟨[⟨some 1, some "admin", some 3, []⟩], rfl, rfl⟩

/-- Claim C8: any integer `level`, including zero and negative values,
passes schema typing and is forwarded unchanged: the endpoint delegates to
the handler at exactly (s, n), and the handler's outcome depends on the
collaborator only through its create operation evaluated at exactly
(s, n). -/
theorem level_not_semantically_validated (crud crud2 : Collaborator) (s : String)
    (n : Int) (h : crud.create_role s n = crud2.create_role s n) :
    post_roles crud ⟨some s, some n⟩ = create_role crud ⟨s, n⟩ ∧
    create_role crud ⟨s, n⟩ = create_role crud2 ⟨s, n⟩ := by
  refine ⟨rfl, ?_⟩
  simp [create_role, run, create_role_prog]
  rw [h]

/-- Witness for C8: a negative level (-5) is accepted and forwarded
unchanged to the collaborator. -/
theorem level_not_semantically_validated_witness :
    post_roles echoCrud ⟨some "user", some (-5)⟩ = create_role echoCrud ⟨"user", -5⟩ ∧
    create_role echoCrud ⟨"user", -5⟩ = create_role echoCrud ⟨"user", -5⟩ :=
  level_not_semantically_validated echoCrud echoCrud "user" (-5) rfl

/-- Claim C9: each of the four handlers performs exactly one delegated
collaborator call per request, whatever the collaborator answers — no
retries and no further calls; as pure functions of (collaborator, request)
they hold no state between requests. -/
theorem each_handler_single_delegated_call (crud : Collaborator) (role : RoleCreate)
    (role_id : Int) (role_name : String) :
    countCalls crud (create_role_prog role) = 1 ∧
    countCalls crud (get_role_prog role_id) = 1 ∧
    countCalls crud (get_role_by_name_prog role_name) = 1 ∧
    countCalls crud get_all_roles_prog = 1 := by
  refine ⟨?_, ?_, ?_, ?_⟩ <;>
    simp [countCalls, create_role_prog, get_role_prog, get_role_by_name_prog,
      get_all_roles_prog]

/-- Claim C10: every successful response body is the serialization of a
collaborator entity through the response model: it carries exactly the
entity's `id`, `role_name` and `level`, extra attributes are stripped (they
never affect serialization), and an entity missing any of the three fields
does not serialize, so no success can be built from it. -/
theorem response_model_exactly_three_fields (crud : Collaborator) (role : RoleCreate)
    (role_id : Int) (role_name : String) (r : RoleResponse) (rs : List RoleResponse) :
    (∀ ent r2, serializeRole ent = some r2 →
      ent.id? = some r2.id ∧ ent.role_name? = some r2.role_name ∧
        ent.level? = some r2.level) ∧
    (∀ ent l, serializeRole ⟨ent.id?, ent.role_name?, ent.level?, l⟩ =
      serializeRole ent) ∧
    (∀ ent, ent.id? = none ∨ ent.role_name? = none ∨ ent.level? = none →
      serializeRole ent = none) ∧
    (create_role crud role = .ok r →
      ∃ ent, crud.create_role role.role_name role.level = .ok ent ∧
        serializeRole ent = some r) ∧
    (get_role crud role_id = .ok r →
      ∃ ent, crud.get_role role_id = .ok (some ent) ∧ serializeRole ent = some r) ∧
    (get_role_by_name crud role_name = .ok r →
      ∃ ent, crud.get_role_by_name role_name = .ok (some ent) ∧
        serializeRole ent = some r) ∧
    (get_all_roles crud = .ok rs →
      ∃ ents, crud.get_all_roles = .ok ents ∧ serializeRoles ents = some rs) := by
  refine ⟨?_, ?_, ?_, ?_, ?_, ?_, ?_⟩
  · intro ent r2 hs
    exact serializeRole_fields hs
  · intro ent l
    unfold serializeRole
    rfl
  · intro ent h
    unfold serializeRole
    rcases h with h | h | h
    · simp [h]
    · cases ent.id? <;> simp [h]
    · cases ent.id? <;> cases ent.role_name? <;> simp [h]
  · intro h
    cases hc : crud.create_role role.role_name role.level with
    | error e => simp [create_role, run, create_role_prog, hc] at h
    | ok ent =>
      cases hs : serializeRole ent with
      | none => simp [create_role, run, create_role_prog, hc, hs] at h
      | some r2 =>
        simp [create_role, run, create_role_prog, hc, hs] at h
        exact ⟨ent, rfl, by rw [hs, h]⟩
  · intro h
    cases hc : crud.get_role role_id with
    | error e => simp [get_role, run, get_role_prog, hc] at h
    | ok o =>
      cases o with
      | none => simp [get_role, run, get_role_prog, hc] at h
      | some ent =>
        cases hs : serializeRole ent with
        | none => simp [get_role, run, get_role_prog, hc, hs] at h
        | some r2 =>
          simp [get_role, run, get_role_prog, hc, hs] at h
          exact ⟨ent, rfl, by rw [hs, h]⟩
  · intro h
    cases hc : crud.get_role_by_name role_name with
    | error e => simp [get_role_by_name, run, get_role_by_name_prog, hc] at h
    | ok o =>
      cases o with
      | none => simp [get_role_by_name, run, get_role_by_name_prog, hc] at h
      | some ent =>
        cases hs : serializeRole ent with
        | none => simp [get_role_by_name, run, get_role_by_name_prog, hc, hs] at h
        | some r2 =>
          simp [get_role_by_name, run, get_role_by_name_prog, hc, hs] at h
          exact ⟨ent, rfl, by rw [hs, h]⟩
  · intro h
    cases hc : crud.get_all_roles with
    | error e => simp [get_all_roles, run, get_all_roles_prog, hc] at h
    | ok ents =>
      cases hs : serializeRoles ents with
      | none => simp [get_all_roles, run, get_all_roles_prog, hc, hs] at h
      | some rs2 =>
        simp [get_all_roles, run, get_all_roles_prog, hc, hs] at h
        exact ⟨ents, rfl, by rw [hs, h]⟩

/-- Witness for C10: an entity carrying an extra attribute serializes to
exactly the three declared fields, and the entity behind a concrete
successful lookup is recovered. -/
theorem response_model_exactly_three_fields_witness :
    ((⟨some 1, some "admin", some 3, [("extra_col", "x")]⟩ : DBEntity).id? = some 1 ∧
      (⟨some 1, some "admin", some 3, [("extra_col", "x")]⟩ : DBEntity).role_name? =
        some "admin" ∧
      (⟨some 1, some "admin", some 3, [("extra_col", "x")]⟩ : DBEntity).level? =
        some 3) ∧
    (∃ ent, echoCrud.get_role 1 = .ok (some ent) ∧
      serializeRole ent = some ⟨1, "admin", 3⟩) :=
  ⟨(response_model_exactly_three_fields echoCrud ⟨"a", 0⟩ 0 "a" ⟨1, "admin", 3⟩ []).1
      ⟨some 1, some "admin", some 3, [("extra_col", "x")]⟩ ⟨1, "admin", 3⟩ rfl,
   (response_model_exactly_three_fields echoCrud ⟨"a", 0⟩ 1 "a" ⟨1, "admin", 3⟩
      []).2.2.2.2.1 rfl⟩

end RoleRouter
